import Mathlib

/-!
Verification of the firepulse planning engine against its specification.

The scheduling model lives in src/src/solver.py: presence variables
`X[p, j]` per (firefighter, day), role-assignment variables
`Y[p, v_idx, r_idx, j]` per (firefighter, vehicle instance, role slot, day),
hard constraints, and a weighted objective handed to the CP-SAT solver.
We embed the model shallowly: a candidate valuation of the decision
variables is a `Solution`, and each `add_contrainte_*` function of the
source becomes a boolean checker over solutions.  `modelAccepts` is the
conjunction of exactly the constraints installed by `solve`
(solver.py:870-878).  The job dispatcher (src/src/worker.py) is embedded
as a sequential trace function, since `worker_processor` is one
sequential async loop that awaits each subprocess before looping.
-/

namespace FirePulse

/-- Qualifications, from `Qualification` in src/entity/pompier.py:13-21.
`value` is the Python enum value used to index the boolean list. -/
inductive Qualification
  | COND_B
  | COND_C
  | SUAP
  | INC
  | PERMIS_AVION
  | CHEF_PE
  | CHEF_ME
  | CHEF_GE
deriving DecidableEq, Repr

instance : Inhabited Qualification := ⟨Qualification.COND_B⟩

/-- The Python enum value of each qualification (src/entity/pompier.py:14-21). -/
def Qualification.value : Qualification → Nat
  | .COND_B => 0
  | .COND_C => 1
  | .SUAP => 2
  | .INC => 3
  | .PERMIS_AVION => 4
  | .CHEF_PE => 5
  | .CHEF_ME => 6
  | .CHEF_GE => 7

/-- A firefighter, from `Pompier` in src/entity/pompier.py:24-38.  String
identifiers are embedded as naturals; `qualifications` is the boolean
list indexed by `Qualification.value` (built in solver.py:70-79 from the
training flags, in enum-value order). -/
structure Pompier where
  pompier_id : Nat
  qualifications : List Bool
deriving DecidableEq, Repr

instance : Inhabited Pompier := ⟨⟨0, []⟩⟩

/-- `Pompier.a_qualification` (src/entity/pompier.py:43-44):
`return self.qualifications[qualif.value]` — an exact lookup, with no
hierarchy substitution.  Out-of-range reads (impossible for the 8-element
lists built by the solver) default to `false`. -/
def Pompier.a_qualification (p : Pompier) (q : Qualification) : Bool :=
  p.qualifications.getD q.value false

/-- A vehicle instance, from `Vehicule` in src/src/entities/vehicule.py:6-14.
`conditions` is the crew template (qualification, count), in insertion
order. -/
structure Vehicule where
  taille_equipe : Nat
  conditions : List (Qualification × Nat)
deriving DecidableEq, Repr

instance : Inhabited Vehicule := ⟨⟨0, []⟩⟩

/-- `Vehicule.roles`, built in the constructor
(src/src/entities/vehicule.py:12-14): for each (qualification, nb) of the
template, `nb` copies of the qualification. -/
def Vehicule.roles (v : Vehicule) : List Qualification :=
  (v.conditions.map fun c => List.replicate c.2 c.1).flatten

/-- `Ambulance` (src/src/entities/vehicule.py:35-44). -/
def Ambulance : Vehicule :=
  ⟨3, [(Qualification.CHEF_PE, 1), (Qualification.COND_B, 1), (Qualification.SUAP, 1)]⟩

/-- `GrandCamion` (src/src/entities/vehicule.py:78-87). -/
def GrandCamion : Vehicule :=
  ⟨7, [(Qualification.CHEF_GE, 1), (Qualification.COND_C, 1), (Qualification.INC, 5)]⟩

/-- Constant `_MAX_WORKING_DAYS_PER_WEEK` (solver.py:22). -/
def MAX_WORKING_DAYS_PER_WEEK : Nat := 5

/-- Constant `_MAX_CONSECUTIVE_WORKING_DAYS` (solver.py:23). -/
def MAX_CONSECUTIVE_WORKING_DAYS : Nat := 3

/-- Constant `_MIN_FIREFIGHTERS_PER_DAY` (solver.py:24). -/
def MIN_FIREFIGHTERS_PER_DAY : Nat := 10

/-- Constant `_WEEK_DAYS = list(range(7))` (solver.py:25). -/
def WEEK_DAYS : List Nat := List.range 7

/-- A valuation of the decision variables of one scheduling run.
`X pi j` values `X[p, j]` for the firefighter at list index `pi`
(solver.py:139-146); `Y pi v r j` values `Y[p, v_idx, r_idx, j]`
(solver.py:147-170); `actif v j` values the auxiliary
`vehicule_{v}_actif_j{j}` boolean of solver.py:222. -/
structure Solution where
  X : Nat → Nat → Bool
  Y : Nat → Nat → Nat → Nat → Bool
  actif : Nat → Nat → Bool

/-- Sum of `X[p, j]` over the given days, as the CP model sums booleans. -/
def sumX (s : Solution) (pi : Nat) (days : List Nat) : Nat :=
  (days.map fun j => (s.X pi j).toNat).sum

/-- Sum of `Y[p, v_idx, r_idx, j]` over all firefighters, the
`nb_pompiers` expressions of solver.py:226 and solver.py:454. -/
def nbPompiersRole (nP : Nat) (s : Solution) (v r j : Nat) : Nat :=
  ((List.range nP).map fun pi => (s.Y pi v r j).toNat).sum

/-- The bindings installed by `create_role_assignments` (solver.py:147-170):
when `p.a_qualification(role)` fails, `Y[p, v, r, j]` is the constant 0
(`model.NewConstant(0)`, solver.py:167); otherwise it is a free variable. -/
def create_role_assignments_binding (pompiers : List Pompier)
    (vehicules : List Vehicule) (s : Solution) : Bool :=
  (List.range pompiers.length).all fun pi =>
    (List.range vehicules.length).all fun v =>
      (List.range (vehicules.getD v default).roles.length).all fun r =>
        WEEK_DAYS.all fun j =>
          (pompiers.getD pi default).a_qualification
              ((vehicules.getD v default).roles.getD r default)
            || !(s.Y pi v r j)

/-- `add_contrainte_max_jours` (solver.py:177-179): weekly cap of 5. -/
def add_contrainte_max_jours (pompiers : List Pompier) (s : Solution) : Bool :=
  (List.range pompiers.length).all fun pi =>
    decide (sumX s pi WEEK_DAYS ≤ MAX_WORKING_DAYS_PER_WEEK)

/-- `add_contrainte_consecutifs` (solver.py:182-187): for each firefighter
and each `j in range(5)`, `X[p,j] + X[p,j+1] + X[p,j+2] <= 3` — a sum of
three booleans bounded by 3. -/
def add_contrainte_consecutifs (pompiers : List Pompier) (s : Solution) : Bool :=
  (List.range pompiers.length).all fun pi =>
    (List.range 5).all fun j =>
      decide ((s.X pi j).toNat + (s.X pi (j + 1)).toNat + (s.X pi (j + 2)).toNat
        ≤ MAX_CONSECUTIVE_WORKING_DAYS)

/-- `add_contrainte_presence_journaliere` (solver.py:190-194): at least 10
firefighters present each day. -/
def add_contrainte_presence_journaliere (pompiers : List Pompier) (s : Solution) : Bool :=
  WEEK_DAYS.all fun j =>
    decide (MIN_FIREFIGHTERS_PER_DAY ≤
      ((List.range pompiers.length).map fun pi => (s.X pi j).toNat).sum)

/-- `add_contrainte_un_role_par_jour` (solver.py:196-205): each firefighter
fills at most one role slot per day, summed over all vehicles and roles. -/
def add_contrainte_un_role_par_jour (pompiers : List Pompier)
    (vehicules : List Vehicule) (s : Solution) : Bool :=
  (List.range pompiers.length).all fun pi =>
    WEEK_DAYS.all fun j =>
      decide ((((List.range vehicules.length).map fun v =>
        ((List.range (vehicules.getD v default).roles.length).map fun r =>
          (s.Y pi v r j).toNat).sum).sum) ≤ 1)

/-- `add_contrainte_presence_role` (solver.py:206-211):
`Y[p, v, r, j] <= X[p, j]` for every quadruple. -/
def add_contrainte_presence_role (pompiers : List Pompier)
    (vehicules : List Vehicule) (s : Solution) : Bool :=
  (List.range pompiers.length).all fun pi =>
    (List.range vehicules.length).all fun v =>
      (List.range (vehicules.getD v default).roles.length).all fun r =>
        WEEK_DAYS.all fun j =>
          decide ((s.Y pi v r j).toNat ≤ (s.X pi j).toNat)

/-- `add_contrainte_roles_vehicules` (solver.py:214-231): for each
(vehicle, day) the boolean `vehicule_actif` enforces, per role,
`nb_pompiers == 1` when set and `nb_pompiers == 0` when not. -/
def add_contrainte_roles_vehicules (pompiers : List Pompier)
    (vehicules : List Vehicule) (s : Solution) : Bool :=
  (List.range vehicules.length).all fun v =>
    WEEK_DAYS.all fun j =>
      (List.range (vehicules.getD v default).roles.length).all fun r =>
        if s.actif v j then nbPompiersRole pompiers.length s v r j == 1
        else nbPompiersRole pompiers.length s v r j == 0

/-- The conjunction of exactly the variable bindings and hard constraints
installed by `solve` (solver.py:863-878): variable creation with
eligibility pruning, then `add_contrainte_max_jours`,
`add_contrainte_consecutifs`, `add_contrainte_presence_journaliere`,
`add_contrainte_un_role_par_jour`, `add_contrainte_presence_role`,
`add_contrainte_roles_vehicules`.  No other hard constraint is added:
in particular `solve` never fetches availability slots and installs no
availability constraint. -/
def modelAccepts (pompiers : List Pompier) (vehicules : List Vehicule)
    (s : Solution) : Bool :=
  create_role_assignments_binding pompiers vehicules s
    && add_contrainte_max_jours pompiers s
    && add_contrainte_consecutifs pompiers s
    && add_contrainte_presence_journaliere pompiers s
    && add_contrainte_un_role_par_jour pompiers vehicules s
    && add_contrainte_presence_role pompiers vehicules s
    && add_contrainte_roles_vehicules pompiers vehicules s

/-- Valuation of the auxiliary variables created by
`add_objectif_maximiser_vehicules` (solver.py:440-485):
`role_ok v r j`, `vehicule_ok v j`, `totaux pi` and `ecart pi`. -/
structure ObjVars where
  role_ok : Nat → Nat → Nat → Bool
  vehicule_ok : Nat → Nat → Bool
  totaux : Nat → Nat
  ecart : Nat → Nat

/-- The constraints installed by `add_objectif_maximiser_vehicules`
(solver.py:448-479): `role_ok` is reified to `nb_pompiers == 1` in both
directions (solver.py:457-458), `vehicule_ok` to the conjunction of the
role indicators (solver.py:463-464); `totaux` equals the weekly presence
sum inside its 0..7 domain (solver.py:469-471) and `ecart` is bounded
below by `totaux - 5` and `5 - totaux` inside its 0..7 domain
(solver.py:473-479, with `moyenne = 5`). -/
def add_objectif_maximiser_vehicules_constraints (pompiers : List Pompier)
    (vehicules : List Vehicule) (s : Solution) (o : ObjVars) : Bool :=
  ((List.range vehicules.length).all fun v =>
    WEEK_DAYS.all fun j =>
      ((List.range (vehicules.getD v default).roles.length).all fun r =>
          o.role_ok v r j == (nbPompiersRole pompiers.length s v r j == 1))
        && (o.vehicule_ok v j ==
            (List.range (vehicules.getD v default).roles.length).all fun r =>
              o.role_ok v r j))
  && ((List.range pompiers.length).all fun pi =>
    (o.totaux pi == sumX s pi WEEK_DAYS)
      && decide (o.totaux pi ≤ 7)
      && decide ((o.totaux pi : Int) - 5 ≤ (o.ecart pi : Int))
      && decide (5 - (o.totaux pi : Int) ≤ (o.ecart pi : Int))
      && decide (o.ecart pi ≤ 7))

/-- Value of `sum(vehicules_actifs)` in the objective (solver.py:483):
the `vehicule_ok` indicators summed over vehicles and days. -/
def vehicule_ok_total (vehicules : List Vehicule) (o : ObjVars) : Nat :=
  ((List.range vehicules.length).map fun v =>
    (WEEK_DAYS.map fun j => (o.vehicule_ok v j).toNat).sum).sum

/-- Value of `sum(ecarts)` in the objective (solver.py:484). -/
def ecart_total (nP : Nat) (o : ObjVars) : Nat :=
  ((List.range nP).map fun pi => o.ecart pi).sum

/-- The objective expression handed to `model.Maximize`
(solver.py:482-485): `1000 * sum(vehicules_actifs) - 1 * sum(ecarts)`. -/
def objectif (vehicules : List Vehicule) (nP : Nat) (o : ObjVars) : Int :=
  1000 * (vehicule_ok_total vehicules o : Int) - (ecart_total nP o : Int)

/-- A vehicle instance is armed on day `j`: every role slot has exactly
one assignee (glossary of the spec; matches the `vehicule_ok`
reification of solver.py:453-464 in any accepted valuation). -/
def armed (pompiers : List Pompier) (vehicules : List Vehicule) (s : Solution)
    (v j : Nat) : Bool :=
  (List.range (vehicules.getD v default).roles.length).all fun r =>
    nbPompiersRole pompiers.length s v r j == 1

/-- Count of (vehicle, day) pairs that are armed over the week. -/
def armedCount (pompiers : List Pompier) (vehicules : List Vehicule)
    (s : Solution) : Nat :=
  ((List.range vehicules.length).map fun v =>
    (WEEK_DAYS.map fun j => (armed pompiers vehicules s v j).toNat).sum).sum

/-- Number of armed vehicles on a given day. -/
def armedOnDay (pompiers : List Pompier) (vehicules : List Vehicule)
    (s : Solution) (j : Nat) : Nat :=
  ((List.range vehicules.length).map fun v =>
    (armed pompiers vehicules s v j).toNat).sum

/-- Sum over firefighters of the absolute deviation of the weekly
presence total from the target of 5 days. -/
def equityDeviation (pompiers : List Pompier) (s : Solution) : Nat :=
  ((List.range pompiers.length).map fun pi =>
    ((sumX s pi WEEK_DAYS : Int) - 5).natAbs).sum

/-- Modelled from the spec (claim C4): the objective the spec describes,
`1000 * armedCount - 100 * (sum of absolute adjacent-day differences in
armed-vehicle count) - 1 * (sum of absolute deviations from 5 days)`.
Defined only to be compared against `objectif`, the objective the code
builds. -/
def objectif_selon_spec (pompiers : List Pompier) (vehicules : List Vehicule)
    (s : Solution) : Int :=
  1000 * (armedCount pompiers vehicules s : Int)
    - 100 * (((List.range 6).map fun j =>
        ((armedOnDay pompiers vehicules s j : Int)
          - (armedOnDay pompiers vehicules s (j + 1) : Int)).natAbs).sum : Int)
    - (equityDeviation pompiers s : Int)

/-- Modelled from the spec (claim C3 contract, also implemented as
`peut_occuper_poste` in src/entity/planning_affectations.py:46-66):
eligibility holds iff the firefighter holds the exact qualification, or
the requirement is a leadership tier and the firefighter holds a
dominating tier (CHEF_GE ≥ CHEF_ME ≥ CHEF_PE). -/
def peut_occuper_poste (p : Pompier) (q : Qualification) : Bool :=
  if p.a_qualification q then true
  else
    match q with
    | Qualification.CHEF_PE =>
        p.a_qualification Qualification.CHEF_ME
          || p.a_qualification Qualification.CHEF_GE
    | Qualification.CHEF_ME => p.a_qualification Qualification.CHEF_GE
    | _ => false

/-- `Weekday` (src/src/entities/availability_slot.py:8-15). -/
inductive Weekday
  | MONDAY
  | TUESDAY
  | WEDNESDAY
  | THURSDAY
  | FRIDAY
  | SATURDAY
  | SUNDAY
deriving DecidableEq, Repr

instance : Inhabited Weekday := ⟨Weekday.MONDAY⟩

/-- The `jours_noms` list of run_solver (solver.py:518-521). -/
def jours_noms : List Weekday :=
  [Weekday.MONDAY, Weekday.TUESDAY, Weekday.WEDNESDAY, Weekday.THURSDAY,
   Weekday.FRIDAY, Weekday.SATURDAY, Weekday.SUNDAY]

/-- `AvailabilitySlot` (src/src/entities/availability_slot.py:17-25);
identifiers embedded as naturals. -/
structure AvailabilitySlot where
  year : Nat
  weekNumber : Nat
  weekday : Weekday
  isAvailable : Bool
  firefighterId : Nat
deriving DecidableEq, Repr

/-- `ShiftType` (src/src/entities/shift_assignment.py:9-12). -/
inductive ShiftType
  | ON_SHIFT
  | OFF_DUTY
  | ON_CALL
deriving DecidableEq, Repr

/-- `ShiftAssignmentCreationDto` (src/src/entities/shift_assignment.py:24-27). -/
structure ShiftAssignmentCreationDto where
  weekday : Weekday
  shiftType : ShiftType
  firefighterId : Nat
deriving DecidableEq, Repr

instance : Inhabited ShiftAssignmentCreationDto :=
  ⟨⟨Weekday.MONDAY, ShiftType.OFF_DUTY, 0⟩⟩

/-- `VehicleAvailabilities` (src/src/entities/planning.py:24-28). -/
structure VehicleAvailabilities where
  vehicleId : Nat
  availableCount : Nat
  weekday : Weekday
deriving DecidableEq, Repr

/-- `PlanningFinalizationDto` (src/src/entities/planning.py:35-37): a
pydantic model with two required fields. -/
structure PlanningFinalizationDto where
  shiftAssignments : List ShiftAssignmentCreationDto
  vehicleAvailabilities : List VehicleAvailabilities
deriving DecidableEq, Repr

/-- Pydantic validation of `PlanningFinalizationDto`: both fields are
required (no defaults in src/src/entities/planning.py:35-37), so a
construction that omits one raises ValidationError — here, returns
`none`. -/
def planningFinalizationDto_validate
    (shifts : Option (List ShiftAssignmentCreationDto))
    (vas : Option (List VehicleAvailabilities)) :
    Option PlanningFinalizationDto :=
  match shifts, vas with
  | some sl, some vl => some ⟨sl, vl⟩
  | _, _ => none

/-- `PlanningStatus` (src/src/entities/planning.py:12-14). -/
inductive PlanningStatus
  | GENERATING
  | FINALIZED
deriving DecidableEq, Repr

/-- CP-SAT solver statuses returned by `solver.Solve` (the ortools
`cp_model` status values). -/
inductive CpSolverStatus
  | UNKNOWN
  | MODEL_INVALID
  | FEASIBLE
  | INFEASIBLE
  | OPTIMAL
deriving DecidableEq, Repr

/-- The shift-record list built by the decode loop of `run_solver`
(solver.py:550-570): one record per firefighter and per day `j` in
`range(7)`, in that nesting order, ON_SHIFT when `solver.Value(X[p, j])`
is set and OFF_DUTY otherwise, tagged with `jours_noms[j]` and the
firefighter's id. -/
def decode_shift_assignments (pompiers : List Pompier) (s : Solution) :
    List ShiftAssignmentCreationDto :=
  (List.range pompiers.length).flatMap fun pi =>
    (List.range 7).map fun j =>
      { weekday := jours_noms.getD j default
        shiftType := if s.X pi j then ShiftType.ON_SHIFT else ShiftType.OFF_DUTY
        firefighterId := (pompiers.getD pi default).pompier_id }

/-- The list `run_solver` returns (solver.py:513-516 and 547-667): empty
when the status is neither OPTIMAL nor FEASIBLE, otherwise the decoded
shift records.  `run_solver` computes nothing else from the valuation
that it returns. -/
def run_solver_result (status : CpSolverStatus) (pompiers : List Pompier)
    (s : Solution) : List ShiftAssignmentCreationDto :=
  if status = CpSolverStatus.OPTIMAL ∨ status = CpSolverStatus.FEASIBLE then
    decode_shift_assignments pompiers s
  else []

/-- A remote push performed by `solve` (solver.py:886-891). -/
inductive RemoteCall
  | finalize_planning (dto : PlanningFinalizationDto)
  | update_planning (status : PlanningStatus)
deriving DecidableEq, Repr

/-- Failure mode of `solve`'s push path: pydantic rejects the
`PlanningFinalizationDto` construction. -/
inductive SolveError
  | ValidationError
deriving DecidableEq, Repr

/-- The push behaviour of `solve` after `run_solver` (solver.py:884-894):
if the returned shift list is empty, no remote call is made and the run
ends normally; otherwise `solve` constructs
`PlanningFinalizationDto(shiftAssignments=...)` — supplying no
`vehicleAvailabilities` (solver.py:887-889) — and would then call
`finalize_planning` and `update_planning(FINALIZED)`.  The `vehicules`
argument is carried to mirror the call but never contributes data. -/
def solve_run (status : CpSolverStatus) (pompiers : List Pompier)
    (_vehicules : List Vehicule) (s : Solution) :
    Except SolveError (List RemoteCall) :=
  let shifts := run_solver_result status pompiers s
  if shifts.isEmpty then Except.ok []
  else
    match planningFinalizationDto_validate (some shifts) none with
    | some dto =>
        Except.ok [RemoteCall.finalize_planning dto,
                   RemoteCall.update_planning PlanningStatus.FINALIZED]
    | none => Except.error SolveError.ValidationError

/-- A payload pulled from `job_queue` (worker.py:26-34): either a dict
with a `planning_id` (embedded as a natural) or anything else, which the
validation of worker.py:29-32 drops. -/
inductive JobPayload
  | valid (planning_id : Nat)
  | malformed
deriving DecidableEq, Repr

/-- What the environment does with one subprocess launch
(worker.py:41-52): the launch may raise, or the child runs for some
duration (modelled as a rational, exact for the spec's scenario values)
and exits with a return code. -/
inductive LaunchOutcome
  | launchError
  | completes (duration : ℚ) (returncode : Int)
deriving DecidableEq, Repr

/-- Observable events of the dispatcher loop, in the order the
sequential body of `worker_processor` (worker.py:23-71) produces them. -/
inductive WorkerEvent
  | dequeued (payload : JobPayload)
  | droppedInvalid
  | subprocessStarted (planning_id : Nat)
  | subprocessExited (planning_id : Nat) (returncode : Int)
  | launchFailed
deriving DecidableEq, Repr

/-- One iteration of the `while True` body of `worker_processor`
(worker.py:23-71): dequeue; drop malformed payloads (worker.py:29-32);
otherwise start the subprocess and await `communicate()` — the loop
blocks until the child exits (worker.py:41-50); on return code 0 update
the moving average `_average_duration_seconds` (worker.py:54-61): first
observed duration if none exists, else `(old * 9 + duration) / 10`.
Returns the events of the iteration and the new average. -/
def processJob (avg : Option ℚ) (job : JobPayload × LaunchOutcome) :
    List WorkerEvent × Option ℚ :=
  match job with
  | (JobPayload.malformed, _) =>
      ([WorkerEvent.dequeued JobPayload.malformed, WorkerEvent.droppedInvalid], avg)
  | (JobPayload.valid pid, LaunchOutcome.launchError) =>
      ([WorkerEvent.dequeued (JobPayload.valid pid), WorkerEvent.launchFailed], avg)
  | (JobPayload.valid pid, LaunchOutcome.completes d rc) =>
      ([WorkerEvent.dequeued (JobPayload.valid pid),
        WorkerEvent.subprocessStarted pid,
        WorkerEvent.subprocessExited pid rc],
       if rc = 0 then
         match avg with
         | none => some d
         | some a => some ((a * 9 + d) / 10)
       else avg)

/-- The dispatcher loop over a finite queue history: `worker_processor`
processes the jobs strictly in order, each iteration completing (child
exit awaited) before the next `job_queue.get()`.  Returns the full event
trace and the final moving average. -/
def worker_processor_run (avg : Option ℚ)
    (jobs : List (JobPayload × LaunchOutcome)) :
    List WorkerEvent × Option ℚ :=
  match jobs with
  | [] => ([], avg)
  | job :: rest =>
      let step := processJob avg job
      let next := worker_processor_run step.2 rest
      (step.1 ++ next.1, next.2)

/-- How one event changes the number of RUNNING schedule computations. -/
def runningStep (n : Nat) (e : WorkerEvent) : Nat :=
  match e with
  | WorkerEvent.subprocessStarted _ => n + 1
  | WorkerEvent.subprocessExited _ _ => n - 1
  | _ => n

/-- Number of subprocesses still running after a trace of events. -/
def runningAfter (events : List WorkerEvent) : Nat :=
  events.foldl runningStep 0

/-!  Concrete scheduling instances used to evaluate the model. -/

/-- A fully trained firefighter profile (all 8 training flags true). -/
def allQuals : List Bool := List.replicate 8 true

/-- A station roster of 14 fully trained firefighters (ids 0..13).
14 firefighters at 5 days each exactly cover the 10-per-day minimum. -/
def pompiers14 : List Pompier :=
  (List.range 14).map fun i => ⟨i, allQuals⟩

/-- Rotating presence: firefighter `pi` works the 5 consecutive days
starting at day `pi % 7` (cyclically).  Every day is covered by exactly
10 of the 14 firefighters and everyone works exactly 5 days. -/
def rotaX : Nat → Nat → Bool :=
  fun pi j => decide ((j + 7 - pi % 7) % 7 < 5)

/-- Rotation solution with no role assignments and no vehicle armed. -/
def sol14 : Solution :=
  ⟨rotaX, fun _ _ _ _ => false, fun _ _ => false⟩

/-- Rotation solution that arms one ambulance on Monday only: the role
slots 0, 1, 2 of vehicle 0 are taken on day 0 by firefighters 0, 3 and 4
(who all work day 0 under `rotaX`). -/
def sol4 : Solution :=
  ⟨rotaX,
   fun pi v r j => decide (v = 0 ∧ j = 0 ∧
     ((pi = 0 ∧ r = 0) ∨ (pi = 3 ∧ r = 1) ∨ (pi = 4 ∧ r = 2))),
   fun v j => decide (v = 0 ∧ j = 0)⟩

/-- Objective-variable valuation matching `sol4` on the roster
`pompiers14` with the single vehicle `Ambulance`: every role indicator
and vehicle indicator set exactly on (vehicle 0, day 0), weekly totals 5,
deviations 0. -/
def obj4 : ObjVars :=
  ⟨fun v r j => decide (v = 0 ∧ r < 3 ∧ j = 0),
   fun v j => decide (v = 0 ∧ j = 0),
   fun _ => 5,
   fun _ => 0⟩

/-- A firefighter (id 14) holding only the top leadership tier CHEF_GE. -/
def pompierGE : Pompier :=
  ⟨14, [false, false, false, false, false, false, false, true]⟩

/-- The 14-firefighter roster extended with the CHEF_GE-only holder. -/
def pompiersGE : List Pompier := pompiers14 ++ [pompierGE]

/-- An availability slot marking firefighter 0 unavailable on Monday. -/
def slot0 : AvailabilitySlot :=
  ⟨2025, 1, Weekday.MONDAY, false, 0⟩

/-- A valuation that tries to assign the CHEF_GE-only firefighter
(index 14) to the CHEF_PE role slot (role 0) of the ambulance on
Monday. -/
def solGEassign : Solution :=
  ⟨rotaX,
   fun pi v r j => decide (pi = 14 ∧ v = 0 ∧ r = 0 ∧ j = 0),
   fun _ _ => false⟩

/-- Claim C1 (code_bug evidence).  `add_contrainte_consecutifs`
(solver.py:182-187) sums only three consecutive presence booleans and
bounds them by `_MAX_CONSECUTIVE_WORKING_DAYS = 3`, so it holds for
every valuation whatsoever — it constrains nothing.  Consequently the
model accepts the rotation solution in which firefighter 0 works days
0-4, whose 4-day window over days 0-3 sums to 4 > 3, contradicting the
claimed 4-day sliding-window cap. -/
theorem consecutive_constraint_vacuous_and_violated :
    (∀ (pompiers : List Pompier) (s : Solution),
      add_contrainte_consecutifs pompiers s = true)
    ∧ modelAccepts pompiers14 [] sol14 = true
    ∧ 3 < sumX sol14 0 (List.range 4) := by
  refine ⟨?_, by decide, by decide⟩
  intro pompiers s
  simp only [add_contrainte_consecutifs, List.all_eq_true, List.mem_range,
    decide_eq_true_eq]
  intro pi _ j _
  have h1 : (s.X pi j).toNat ≤ 1 := Bool.toNat_le (s.X pi j)
  have h2 : (s.X pi (j + 1)).toNat ≤ 1 := Bool.toNat_le (s.X pi (j + 1))
  have h3 : (s.X pi (j + 2)).toNat ≤ 1 := Bool.toNat_le (s.X pi (j + 2))
  simp only [MAX_CONSECUTIVE_WORKING_DAYS]
  omega

/-- Claim C2 (counterexample).  The slot `slot0` marks firefighter 0
(the firefighter at roster index 0) unavailable on Monday, yet the model
accepts the rotation solution in which that firefighter is present on
Monday (`X 0 0 = true`): `solve` installs no availability constraint. -/
theorem availability_claim_false :
    slot0.isAvailable = false
    ∧ slot0.weekday = Weekday.MONDAY
    ∧ slot0.firefighterId = (pompiers14.getD 0 default).pompier_id
    ∧ modelAccepts pompiers14 [] sol14 = true
    ∧ sol14.X 0 0 ≠ false := by
  refine ⟨rfl, rfl, by decide, by decide, by decide⟩

/-- Claim C2 (amended): the scheduling model enforces no availability
constraint — there is an accepted solution in which a firefighter marked
unavailable by an `AvailabilitySlot` is nevertheless present that day. -/
theorem availability_not_enforced :
    ∃ s : Solution,
      modelAccepts pompiers14 [] s = true
      ∧ s.X 0 0 = true
      ∧ slot0.firefighterId = (pompiers14.getD 0 default).pompier_id
      ∧ slot0.isAvailable = false
      ∧ slot0.weekday = Weekday.MONDAY :=
  ⟨sol14, by decide, by decide, by decide, rfl, rfl⟩

/-- Claim C3 (counterexample).  The firefighter holding only the top
leadership tier CHEF_GE is not eligible, in the sense used by
`create_role_assignments` (solver.py:160), for a CHEF_PE role slot:
`a_qualification` is an exact lookup, although the spec's dominance rule
(implemented as `peut_occuper_poste` in
src/entity/planning_affectations.py:46-66) accepts the substitution.  A
valuation assigning that firefighter to the ambulance's CHEF_PE slot is
rejected by the variable bindings — the RoleAssignment is a constant 0,
not a free variable. -/
theorem eligibility_hierarchy_not_used :
    pompierGE.a_qualification Qualification.CHEF_PE = false
    ∧ peut_occuper_poste pompierGE Qualification.CHEF_PE = true
    ∧ pompierGE.a_qualification Qualification.CHEF_GE = true
    ∧ create_role_assignments_binding pompiersGE [Ambulance] solGEassign = false := by
  refine ⟨by decide, by decide, by decide, by decide⟩

/-- Claim C3 (amended): the eligibility used when creating role
assignments is exact-match only.  In every accepted solution, a
firefighter who does not hold the exact qualification required by a role
slot — whatever dominating leadership tier they hold — is never assigned
to it: the variable was bound to the constant 0. -/
theorem assignment_requires_exact_qualification
    (pompiers : List Pompier) (vehicules : List Vehicule) (s : Solution)
    (pi v r j : Nat)
    (hpi : pi < pompiers.length) (hv : v < vehicules.length)
    (hr : r < (vehicules.getD v default).roles.length) (hj : j < 7)
    (hacc : modelAccepts pompiers vehicules s = true)
    (hq : (pompiers.getD pi default).a_qualification
        ((vehicules.getD v default).roles.getD r default) = false) :
    s.Y pi v r j = false := by
  simp only [modelAccepts, Bool.and_eq_true] at hacc
  obtain ⟨⟨⟨⟨⟨⟨h1, _⟩, _⟩, _⟩, _⟩, _⟩, _⟩ := hacc
  rw [create_role_assignments_binding, List.all_eq_true] at h1
  have h1 := h1 pi (List.mem_range.mpr hpi)
  rw [List.all_eq_true] at h1
  have h1 := h1 v (List.mem_range.mpr hv)
  rw [List.all_eq_true] at h1
  have h1 := h1 r (List.mem_range.mpr hr)
  rw [List.all_eq_true] at h1
  have h1 := h1 j (by rw [WEEK_DAYS]; exact List.mem_range.mpr hj)
  rw [hq, Bool.false_or, Bool.not_eq_eq_eq_not, Bool.not_true] at h1
  exact h1

/-- Witness for `assignment_requires_exact_qualification`: the
CHEF_GE-only firefighter (index 14) is never assigned to the ambulance's
CHEF_PE role slot in the accepted rotation solution. -/
theorem assignment_requires_exact_qualification_witness :
    (14 < pompiersGE.length ∧ 0 < ([Ambulance] : List Vehicule).length
      ∧ 0 < (([Ambulance] : List Vehicule).getD 0 default).roles.length
      ∧ (0 : Nat) < 7
      ∧ modelAccepts pompiersGE [Ambulance] sol14 = true
      ∧ (pompiersGE.getD 14 default).a_qualification
          ((([Ambulance] : List Vehicule).getD 0 default).roles.getD 0 default) = false)
    ∧ sol14.Y 14 0 0 0 = false :=
  ⟨⟨by decide, by decide, by decide, by decide, by decide, by decide⟩,
   assignment_requires_exact_qualification pompiersGE [Ambulance] sol14 14 0 0 0
     (by decide) (by decide) (by decide) (by decide) (by decide) (by decide)⟩

/-- Claim C5 (code_bug evidence).  On an OPTIMAL run of a feasible
instance, `run_solver` returns the decoded shift records and nothing
else — no per-vehicle-type available-count is computed anywhere in the
decode (solver.py:547-667) — and `solve` then constructs
`PlanningFinalizationDto(shiftAssignments=...)` without the
`vehicleAvailabilities` field that the DTO declares as required
(src/src/entities/planning.py:35-37), so the push path fails validation
instead of pushing both lists. -/
theorem finalization_missing_vehicle_availabilities :
    run_solver_result CpSolverStatus.OPTIMAL pompiers14 sol4
        = decode_shift_assignments pompiers14 sol4
    ∧ run_solver_result CpSolverStatus.OPTIMAL pompiers14 sol4 ≠ []
    ∧ solve_run CpSolverStatus.OPTIMAL pompiers14 [Ambulance] sol4
        = Except.error SolveError.ValidationError := by
  refine ⟨rfl, by decide, by rfl⟩

/-- Claim C6.  Whenever the solver status is neither OPTIMAL nor
FEASIBLE, `run_solver` returns the empty schedule (solver.py:513-516)
and `solve` performs no remote push — neither `finalize_planning` nor
`update_planning` is called — and the run ends normally, not in an
error (solver.py:884-894). -/
theorem no_push_on_unsuccessful_status (status : CpSolverStatus)
    (pompiers : List Pompier) (vehicules : List Vehicule) (s : Solution)
    (h1 : status ≠ CpSolverStatus.OPTIMAL)
    (h2 : status ≠ CpSolverStatus.FEASIBLE) :
    run_solver_result status pompiers s = []
    ∧ solve_run status pompiers vehicules s = Except.ok [] := by
  have hr : run_solver_result status pompiers s = [] := by
    rw [run_solver_result, if_neg]
    rintro (h | h)
    · exact h1 h
    · exact h2 h
  refine ⟨hr, ?_⟩
  rw [solve_run]
  simp only [hr, List.isEmpty_nil, if_true]

/-- Witness for `no_push_on_unsuccessful_status` at status INFEASIBLE. -/
theorem no_push_on_unsuccessful_status_witness :
    (CpSolverStatus.INFEASIBLE ≠ CpSolverStatus.OPTIMAL
      ∧ CpSolverStatus.INFEASIBLE ≠ CpSolverStatus.FEASIBLE)
    ∧ run_solver_result CpSolverStatus.INFEASIBLE pompiers14 sol14 = []
    ∧ solve_run CpSolverStatus.INFEASIBLE pompiers14 [] sol14 = Except.ok [] :=
  ⟨⟨by decide, by decide⟩,
   no_push_on_unsuccessful_status CpSolverStatus.INFEASIBLE pompiers14 [] sol14
     (by decide) (by decide)⟩

/-- Claim C7.  In every accepted solution, for every vehicle instance
and day, either every role slot of the vehicle has exactly one assignee
or every role slot has zero assignees: the `vehicule_actif` reification
of `add_contrainte_roles_vehicules` (solver.py:214-231) forbids partial
crews. -/
theorem vehicle_never_partially_crewed (pompiers : List Pompier)
    (vehicules : List Vehicule) (s : Solution) (v j : Nat)
    (hv : v < vehicules.length) (hj : j < 7)
    (hacc : modelAccepts pompiers vehicules s = true) :
    (∀ r < (vehicules.getD v default).roles.length,
        nbPompiersRole pompiers.length s v r j = 1)
    ∨ (∀ r < (vehicules.getD v default).roles.length,
        nbPompiersRole pompiers.length s v r j = 0) := by
  simp only [modelAccepts, Bool.and_eq_true] at hacc
  obtain ⟨⟨⟨⟨⟨⟨_, _⟩, _⟩, _⟩, _⟩, _⟩, h7⟩ := hacc
  rw [add_contrainte_roles_vehicules, List.all_eq_true] at h7
  have h7 := h7 v (List.mem_range.mpr hv)
  rw [List.all_eq_true] at h7
  have h7 := h7 j (by rw [WEEK_DAYS]; exact List.mem_range.mpr hj)
  rw [List.all_eq_true] at h7
  by_cases ha : s.actif v j = true
  · left
    intro r hrlt
    have hrr := h7 r (List.mem_range.mpr hrlt)
    rw [if_pos ha] at hrr
    exact eq_of_beq hrr
  · right
    intro r hrlt
    have hrr := h7 r (List.mem_range.mpr hrlt)
    rw [if_neg ha] at hrr
    exact eq_of_beq hrr

/-- Witness for `vehicle_never_partially_crewed`: the armed ambulance on
Monday in the accepted solution `sol4`. -/
theorem vehicle_never_partially_crewed_witness :
    ((0 : Nat) < ([Ambulance] : List Vehicule).length ∧ (0 : Nat) < 7
      ∧ modelAccepts pompiers14 [Ambulance] sol4 = true)
    ∧ ((∀ r < (([Ambulance] : List Vehicule).getD 0 default).roles.length,
          nbPompiersRole pompiers14.length sol4 0 r 0 = 1)
      ∨ (∀ r < (([Ambulance] : List Vehicule).getD 0 default).roles.length,
          nbPompiersRole pompiers14.length sol4 0 r 0 = 0)) :=
  ⟨⟨by decide, by decide, by decide⟩,
   vehicle_never_partially_crewed pompiers14 [Ambulance] sol4 0 0
     (by decide) (by decide) (by decide)⟩

/-- The events of one dispatcher iteration never leave a subprocess
running (each segment returns the running count to 0), and no prefix of
a segment ever has more than one running. -/
theorem processJob_running_bounds (avg : Option ℚ)
    (job : JobPayload × LaunchOutcome) :
    (∀ k, runningAfter ((processJob avg job).1.take k) ≤ 1)
    ∧ List.foldl runningStep 0 (processJob avg job).1 = 0 := by
  obtain ⟨payload, outcome⟩ := job
  cases payload with
  | malformed =>
      refine ⟨?_, rfl⟩
      intro k
      match k with
      | 0 => simp [processJob, runningAfter, runningStep]
      | 1 => simp [processJob, runningAfter, runningStep]
      | Nat.succ (Nat.succ k) => simp [processJob, runningAfter, runningStep]
  | valid pid =>
      cases outcome with
      | launchError =>
          refine ⟨?_, rfl⟩
          intro k
          match k with
          | 0 => simp [processJob, runningAfter, runningStep]
          | 1 => simp [processJob, runningAfter, runningStep]
          | Nat.succ (Nat.succ k) => simp [processJob, runningAfter, runningStep]
      | completes d rc =>
          refine ⟨?_, rfl⟩
          intro k
          match k with
          | 0 => simp [processJob, runningAfter, runningStep]
          | 1 => simp [processJob, runningAfter, runningStep]
          | 2 => simp [processJob, runningAfter, runningStep]
          | Nat.succ (Nat.succ (Nat.succ k)) =>
              simp [processJob, runningAfter, runningStep]

/-- Claim C8.  Along every dispatcher history — any queue contents and
any subprocess outcomes, whatever the queue depth — at every point of
the event trace, at most one schedule-computation subprocess is running:
the sequential loop of `worker_processor` (worker.py:23-71) launches the
next subprocess only after awaiting the previous one's exit. -/
theorem at_most_one_subprocess_running (avg : Option ℚ)
    (jobs : List (JobPayload × LaunchOutcome)) (k : Nat) :
    runningAfter ((worker_processor_run avg jobs).1.take k) ≤ 1 := by
  induction jobs generalizing avg k with
  | nil => simp [worker_processor_run, runningAfter]
  | cons job rest ih =>
      show runningAfter
        (((processJob avg job).1 ++
          (worker_processor_run (processJob avg job).2 rest).1).take k) ≤ 1
      rw [List.take_append_eq_append_take, runningAfter, List.foldl_append]
      by_cases hk : k ≤ (processJob avg job).1.length
      · have hz : k - (processJob avg job).1.length = 0 := Nat.sub_eq_zero_of_le hk
        rw [hz, List.take_zero, List.foldl_nil]
        exact (processJob_running_bounds avg job).1 k
      · have hlen : (processJob avg job).1.length ≤ k := le_of_not_le hk
        rw [List.take_of_length_le hlen, (processJob_running_bounds avg job).2]
        exact ih (processJob avg job).2 (k - (processJob avg job).1.length)

/-- Claim C9.  The moving-average estimate (worker.py:54-61) equals the
first observed duration when no estimate exists, is updated to
`(9 * old + t) / 10` by each subsequent completed (return code 0) run of
duration `t`, and after runs of 10s and 20s equals exactly 11.
Durations are embedded as rationals; the scenario's values (10, 20, 90,
110, 11) are all exactly representable in the source's binary floating
point, so the rational computation coincides with the float one here. -/
theorem ema_moving_average :
    (∀ (d : ℚ) (pid : Nat),
      (processJob none (JobPayload.valid pid, LaunchOutcome.completes d 0)).2
        = some d)
    ∧ (∀ (a d : ℚ) (pid : Nat),
      (processJob (some a) (JobPayload.valid pid, LaunchOutcome.completes d 0)).2
        = some ((9 * a + d) / 10))
    ∧ (worker_processor_run none
        [(JobPayload.valid 1, LaunchOutcome.completes 10 0),
         (JobPayload.valid 2, LaunchOutcome.completes 20 0)]).2 = some 11 := by
  refine ⟨?_, ?_, ?_⟩
  · intro d pid
    simp [processJob]
  · intro a d pid
    simp [processJob]
    ring_nf
  · simp [worker_processor_run, processJob]
    norm_num

/-- Congruence for `List.all` under a pointwise-equal predicate. -/
theorem list_all_congr {α : Type} {l : List α} {f g : α → Bool}
    (h : ∀ a ∈ l, f a = g a) : l.all f = l.all g := by
  induction l with
  | nil => rfl
  | cons x xs ih =>
      simp only [List.all_cons]
      rw [h x (List.mem_cons_self x xs),
        ih fun a ha => h a (List.mem_cons_of_mem x ha)]

/-- Claim C4 (counterexample).  On the 14-firefighter roster with one
ambulance, armed on Monday only, the reified objective constraints hold
and the objective the code hands to `model.Maximize`
(solver.py:482-485) evaluates to 1000, while the objective the claim
describes — with its 100-weighted adjacent-day balance term — evaluates
to 900: the code's objective has no day-balance term. -/
theorem objective_lacks_day_balance_term :
    modelAccepts pompiers14 [Ambulance] sol4 = true
    ∧ add_objectif_maximiser_vehicules_constraints pompiers14 [Ambulance] sol4 obj4 = true
    ∧ objectif [Ambulance] pompiers14.length obj4 = 1000
    ∧ objectif_selon_spec pompiers14 [Ambulance] sol4 = 900
    ∧ objectif [Ambulance] pompiers14.length obj4
        ≠ objectif_selon_spec pompiers14 [Ambulance] sol4 := by
  refine ⟨by decide, by decide, by decide, by decide, by decide⟩

/-- The `ecart` variables taken at their minimum feasible values — what
the maximizing solver does, since each `ecart` appears negatively in the
objective and is only bounded below by `|totaux - 5|`. -/
def tight_ecarts (nP : Nat) (o : ObjVars) : Bool :=
  (List.range nP).all fun pi =>
    o.ecart pi == ((o.totaux pi : Int) - 5).natAbs

/-- Claim C4 (amended): the objective handed to the solver equals 1000
times the count of armed (vehicle, day) pairs minus 1 times the sum of
absolute deviations of weekly presence totals from 5, with no
day-balance term — whenever the objective constraints hold and the
`ecart` variables sit at their minimum feasible values. -/
theorem objectif_is_readiness_minus_equity
    (pompiers : List Pompier) (vehicules : List Vehicule)
    (s : Solution) (o : ObjVars)
    (hc : add_objectif_maximiser_vehicules_constraints pompiers vehicules s o = true)
    (ht : tight_ecarts pompiers.length o = true) :
    objectif vehicules pompiers.length o =
      1000 * (armedCount pompiers vehicules s : Int)
        - (equityDeviation pompiers s : Int) := by
  rw [add_objectif_maximiser_vehicules_constraints, Bool.and_eq_true] at hc
  obtain ⟨hveh, hp⟩ := hc
  have h1 : vehicule_ok_total vehicules o = armedCount pompiers vehicules s := by
    rw [vehicule_ok_total, armedCount]
    apply congrArg List.sum
    apply List.map_congr_left
    intro v hv
    apply congrArg List.sum
    apply List.map_congr_left
    intro j hj
    apply congrArg Bool.toNat
    rw [List.all_eq_true] at hveh
    have hvj := hveh v hv
    rw [List.all_eq_true] at hvj
    have hvj := hvj j hj
    rw [Bool.and_eq_true] at hvj
    obtain ⟨hroles, hvok⟩ := hvj
    rw [eq_of_beq hvok, armed]
    apply list_all_congr
    intro r hr
    rw [List.all_eq_true] at hroles
    exact eq_of_beq (hroles r hr)
  have h2 : ecart_total pompiers.length o = equityDeviation pompiers s := by
    rw [ecart_total, equityDeviation]
    apply congrArg List.sum
    apply List.map_congr_left
    intro pi hpi
    rw [List.all_eq_true] at hp
    rw [tight_ecarts, List.all_eq_true] at ht
    have hpp := hp pi hpi
    simp only [Bool.and_eq_true] at hpp
    obtain ⟨⟨⟨⟨htot, _⟩, _⟩, _⟩, _⟩ := hpp
    have htot := eq_of_beq htot
    have hti := eq_of_beq (ht pi hpi)
    rw [hti, htot]
  rw [objectif, h1, h2]

/-- Witness for `objectif_is_readiness_minus_equity` on the concrete
Monday-armed ambulance instance. -/
theorem objectif_is_readiness_minus_equity_witness :
    (add_objectif_maximiser_vehicules_constraints pompiers14 [Ambulance] sol4 obj4 = true
      ∧ tight_ecarts pompiers14.length obj4 = true)
    ∧ objectif [Ambulance] pompiers14.length obj4 =
        1000 * (armedCount pompiers14 [Ambulance] sol4 : Int)
          - (equityDeviation pompiers14 sol4 : Int) :=
  ⟨⟨by decide, by decide⟩,
   objectif_is_readiness_minus_equity pompiers14 [Ambulance] sol4 obj4
     (by decide) (by decide)⟩

/-- Length of a flatMap over `List.range` with 7-element blocks. -/
theorem range_flatMap_length {α : Type} (n : Nat) (g : Nat → List α)
    (h : ∀ i, (g i).length = 7) :
    ((List.range n).flatMap g).length = 7 * n := by
  induction n with
  | zero => simp
  | succ m ih =>
      rw [List.range_succ, List.flatMap_append, List.length_append, ih]
      simp [h m, Nat.mul_succ]

/-- Indexing a flatMap over `List.range` with 7-element blocks. -/
theorem range_flatMap_get {α : Type} (n : Nat) (g : Nat → List α)
    (h : ∀ i, (g i).length = 7) (pi j : Nat) (hpi : pi < n) (hj : j < 7) :
    ((List.range n).flatMap g).get? (7 * pi + j) = (g pi).get? j := by
  induction n with
  | zero => exact absurd hpi (Nat.not_lt_zero pi)
  | succ m ih =>
      rw [List.range_succ, List.flatMap_append]
      by_cases hpm : pi < m
      · rw [List.get?_append]
        · exact ih hpm
        · rw [range_flatMap_length m g h]
          calc 7 * pi + j < 7 * pi + 7 := by omega
            _ ≤ 7 * m := by omega
      · have hpe : pi = m := by omega
        subst hpe
        rw [List.get?_append_right]
        · rw [range_flatMap_length pi g h]
          simp [Nat.add_sub_cancel_left]
        · rw [range_flatMap_length pi g h]
          omega

/-- Claim C10.  Whenever `run_solver` returns a non-empty list, the
decode loop (solver.py:550-570) emits exactly 7 records per firefighter
— one per weekday, OFF_DUTY included — so the returned list has length
`7 * |pompiers|`, and the record for (firefighter `pi`, day `j`) sits at
position `7 * pi + j`, carries `jours_noms[j]` and the firefighter's id,
and is ON_SHIFT exactly when `X[p, j] = 1` in the decoded valuation. -/
theorem decoder_emits_full_week (status : CpSolverStatus)
    (pompiers : List Pompier) (s : Solution)
    (hne : run_solver_result status pompiers s ≠ []) :
    (run_solver_result status pompiers s).length = 7 * pompiers.length
    ∧ ∀ pi j, pi < pompiers.length → j < 7 →
        (run_solver_result status pompiers s).get? (7 * pi + j) =
          some { weekday := jours_noms.getD j default
                 shiftType := if s.X pi j then ShiftType.ON_SHIFT
                   else ShiftType.OFF_DUTY
                 firefighterId := (pompiers.getD pi default).pompier_id } := by
  have hst : status = CpSolverStatus.OPTIMAL ∨ status = CpSolverStatus.FEASIBLE := by
    by_contra hcon
    rw [run_solver_result, if_neg hcon] at hne
    exact hne rfl
  rw [run_solver_result, if_pos hst, decode_shift_assignments]
  have hlen : ∀ i : Nat, ((List.range 7).map fun j =>
      ({ weekday := jours_noms.getD j default
         shiftType := if s.X i j then ShiftType.ON_SHIFT else ShiftType.OFF_DUTY
         firefighterId := (pompiers.getD i default).pompier_id } :
        ShiftAssignmentCreationDto)).length = 7 := by
    intro i
    simp
  refine ⟨range_flatMap_length pompiers.length _ hlen, ?_⟩
  intro pi j hpi hj
  rw [range_flatMap_get pompiers.length _ hlen pi j hpi hj,
    List.get?_map, List.get?_range hj, Option.map_some']

/-- Witness for `decoder_emits_full_week` on the OPTIMAL run of the
Monday-armed ambulance instance: 14 firefighters, 98 records. -/
theorem decoder_emits_full_week_witness :
    run_solver_result CpSolverStatus.OPTIMAL pompiers14 sol4 ≠ []
    ∧ ((run_solver_result CpSolverStatus.OPTIMAL pompiers14 sol4).length
          = 7 * pompiers14.length
      ∧ ∀ pi j, pi < pompiers14.length → j < 7 →
          (run_solver_result CpSolverStatus.OPTIMAL pompiers14 sol4).get?
              (7 * pi + j) =
            some { weekday := jours_noms.getD j default
                   shiftType := if sol4.X pi j then ShiftType.ON_SHIFT
                     else ShiftType.OFF_DUTY
                   firefighterId := (pompiers14.getD pi default).pompier_id }) :=
  ⟨by decide,
   decoder_emits_full_week CpSolverStatus.OPTIMAL pompiers14 sol4 (by decide)⟩

end FirePulse
